import Mathlib

/-!
Verification of the `conditional_transfer` Solana program.

Shallow embedding of `src/programs/conditional_transfer/src/lib.rs`, an
Anchor program with one persistent `Config` record and four instructions:
`initialize`, `send_if_over_threshold`, `update_threshold`,
`update_addresses`.

Modelling choices:
* A `Pubkey` (a 32-byte identity) is modelled as `Nat`; `0` is the
  zero/null identity.
* `u64` amounts are modelled as `Nat` (the program only stores and
  compares them; it performs no arithmetic on them).
* Each instruction is a function from the chain state plus the presented
  accounts/arguments to `Except TxError Chain`.  The Anchor-generated
  account validation (from the `#[derive(Accounts)]` attributes in the
  source) is translated explicitly, field by field, in source order.
* A failed instruction has no effect: the Solana runtime rolls the whole
  transaction back.  `applyOp` captures this by returning the old state
  on error.
-/

namespace ConditionalTransfer

/-- A Solana public key (32 bytes), modelled as a natural number.
`0` is the all-zeros ("zero/null") identity. -/
abbrev Pubkey := Nat

/-- On-chain config for the program (source: `struct Config`, lib.rs
lines 155-162): authority, from, to, threshold_lamports, bump. -/
structure Config where
  authority : Pubkey
  «from» : Pubkey
  «to» : Pubkey
  threshold_lamports : Nat
  bump : Nat
deriving DecidableEq, Repr

/-- Errors an instruction of this program can produce.
`BelowThreshold` and `Unauthorized` are the program's own
`ConditionalError` variants (lib.rs lines 165-173); the others are
raised by the Anchor framework / runtime from the account constraints
declared in the source's `#[derive(Accounts)]` contexts, or by the
external System Program transfer. -/
inductive TxError where
  /-- Source `ConditionalError::BelowThreshold`: amount below the configured
  threshold. -/
  | BelowThreshold
  /-- Source `ConditionalError::Unauthorized`: caller attempted an unauthorized
  update (raised by `require_keys_eq!` in the handlers). -/
  | Unauthorized
  /-- Anchor: an `address = ...` account constraint was violated
  (`from`/`to` in `SendIfOverThreshold`). -/
  | ConstraintAddress
  /-- Anchor: the `has_one = authority` constraint on `Update.config`
  was violated. -/
  | ConstraintHasOne
  /-- Runtime: an account declared `Signer` did not sign the
  transaction. -/
  | MissingSignature
  /-- Anchor: `init` on the config PDA when the account already
  exists. -/
  | AlreadyExists
  /-- Anchor: the config PDA does not exist yet. -/
  | AccountNotInitialized
  /-- The external System Program transfer failed
  (insufficient source balance). -/
  | TransferFailed
deriving DecidableEq, Repr

/-- The spec's error taxonomy (its section 7). -/
inductive SpecError where
  | AlreadyExists
  | NotFound
  | Unauthorized
  | BelowThreshold
  | TransferFailed
deriving DecidableEq, Repr

/-- Modelled from the spec: section 7 names every identity-mismatch
failure `Unauthorized` — "proof identity does not match required field
(`authority` for config ops, `source` for transfer, or recipient
mismatch)".  At the code level these surface as the framework's
constraint errors or the program's own `Unauthorized` variant; this map
is the correspondence between the code-level errors and the spec-level
taxonomy. -/
def TxError.toSpec : TxError → SpecError
  | .BelowThreshold => .BelowThreshold
  | .Unauthorized => .Unauthorized
  | .ConstraintAddress => .Unauthorized
  | .ConstraintHasOne => .Unauthorized
  | .MissingSignature => .Unauthorized
  | .AlreadyExists => .AlreadyExists
  | .AccountNotInitialized => .NotFound
  | .TransferFailed => .TransferFailed

/-- Chain state visible to this program: the (at most one) config PDA
and the lamport balance of every account. -/
structure Chain where
  config : Option Config
  balances : Pubkey → Nat

/-- Modelled from the spec: the external value-transfer primitive (the
System Program `transfer`, invoked by CPI at lib.rs lines 66-73, is not
part of this repository).  Spec section 6: it "accepts
(source_identity, destination_identity, amount), debits source, credits
destination, fails if source has insufficient balance", all-or-nothing. -/
def system_transfer (bal : Pubkey → Nat) (src dst : Pubkey) (amount : Nat) :
    Except TxError (Pubkey → Nat) :=
  if bal src < amount then
    .error .TransferFailed
  else
    let debited : Pubkey → Nat := fun p => if p = src then bal p - amount else bal p
    .ok (fun p => if p = dst then debited p + amount else debited p)

/-- Source function `initialize` (lib.rs lines 40-53) with its `Initialize` accounts
context (lines 96-114): `authority` must sign; the config PDA is
created (`init`), failing if it already exists; the handler stores
`authority`, `from`, `to`, `threshold_lamports` and the canonical PDA
bump found by Anchor (passed in here as `bump`, since PDA derivation is
external to the program). -/
def initializeConfig (st : Chain) (authorityKey : Pubkey) (authoritySigned : Bool)
    (fromArg toArg : Pubkey) (threshold_lamports : Nat) (bump : Nat) :
    Except TxError Chain :=
  if !authoritySigned then .error .MissingSignature
  else
    match st.config with
    | some _ => .error .AlreadyExists
    | none =>
        .ok { st with
              config := some
                { authority := authorityKey
                  «from» := fromArg
                  «to» := toArg
                  threshold_lamports := threshold_lamports
                  bump := bump } }

/-- Source function `send_if_over_threshold` (lib.rs lines 57-75) with its
`SendIfOverThreshold` accounts context (lines 117-135).  Account
validation in field order: the config PDA must exist (seeds/bump);
`from` must sign and satisfy `address = config.from`; `to` must satisfy
`address = config.to`.  The handler then requires
`lamports >= cfg.threshold_lamports` (else `BelowThreshold`) and CPIs
the System Program to move `lamports` from `from` to `to`. -/
def send_if_over_threshold (st : Chain) (fromKey : Pubkey) (fromSigned : Bool)
    (toKey : Pubkey) (lamports : Nat) : Except TxError Chain :=
  match st.config with
  | none => .error .AccountNotInitialized
  | some cfg =>
      if !fromSigned then .error .MissingSignature
      else if fromKey ≠ cfg.«from» then .error .ConstraintAddress
      else if toKey ≠ cfg.«to» then .error .ConstraintAddress
      else if lamports < cfg.threshold_lamports then .error .BelowThreshold
      else
        match system_transfer st.balances fromKey toKey lamports with
        | .error e => .error e
        | .ok bal => .ok { st with balances := bal }

/-- Source function `update_threshold` (lib.rs lines 78-83) with its `Update` accounts
context (lines 138-152): `authority` must sign; the config PDA carries
`has_one = authority`; the handler re-checks
`require_keys_eq!(cfg.authority, authority, Unauthorized)` (kept here
exactly as in the source although the `has_one` constraint has already
enforced it) and stores the new threshold.  No bound is placed on
`new_threshold_lamports`. -/
def update_threshold (st : Chain) (authorityKey : Pubkey) (authoritySigned : Bool)
    (new_threshold_lamports : Nat) : Except TxError Chain :=
  match st.config with
  | none => .error .AccountNotInitialized
  | some cfg =>
      if !authoritySigned then .error .MissingSignature
      else if cfg.authority ≠ authorityKey then .error .ConstraintHasOne
      else if cfg.authority ≠ authorityKey then .error .Unauthorized
      else .ok { st with
                 config := some { cfg with threshold_lamports := new_threshold_lamports } }

/-- Source function `update_addresses` (lib.rs lines 86-92) with the same `Update`
accounts context: authority-gated exactly as `update_threshold`; the
handler stores `new_from` and `new_to` together.  No validation relates
`new_from` and `new_to` (they may be equal). -/
def update_addresses (st : Chain) (authorityKey : Pubkey) (authoritySigned : Bool)
    (new_from new_to : Pubkey) : Except TxError Chain :=
  match st.config with
  | none => .error .AccountNotInitialized
  | some cfg =>
      if !authoritySigned then .error .MissingSignature
      else if cfg.authority ≠ authorityKey then .error .ConstraintHasOne
      else if cfg.authority ≠ authorityKey then .error .Unauthorized
      else .ok { st with
                 config := some { cfg with «from» := new_from, «to» := new_to } }

/-- One invocation of an instruction of the program, with the accounts
and arguments the caller presents. -/
inductive Op where
  | opInit (authorityKey : Pubkey) (signed : Bool) (fromArg toArg : Pubkey)
      (threshold bump : Nat)
  | opSend (fromKey : Pubkey) (signed : Bool) (toKey : Pubkey) (lamports : Nat)
  | opUpdThreshold (authorityKey : Pubkey) (signed : Bool) (newThreshold : Nat)
  | opUpdAddresses (authorityKey : Pubkey) (signed : Bool) (newFrom newTo : Pubkey)
deriving DecidableEq, Repr

/-- Run one instruction. -/
def runOp (st : Chain) : Op → Except TxError Chain
  | .opInit a s f t th b => initializeConfig st a s f t th b
  | .opSend f s t l => send_if_over_threshold st f s t l
  | .opUpdThreshold a s n => update_threshold st a s n
  | .opUpdAddresses a s f t => update_addresses st a s f t

/-- Effect of one transaction on the chain: a failed instruction is
rolled back whole (Solana transaction atomicity), leaving the state
unchanged. -/
def applyOp (st : Chain) (op : Op) : Chain :=
  match runOp st op with
  | .ok st' => st'
  | .error _ => st

/-- Run a sequence of transactions. -/
def exec (st : Chain) (ops : List Op) : Chain :=
  ops.foldl applyOp st

/-- Modelled from the spec: an identity is "zero/null" when it is the
all-zeros key, i.e. `0` in this embedding.  `configNonzero` holds when
the stored config (if any) has no zero/null identity field. -/
def configNonzero (st : Chain) : Bool :=
  match st.config with
  | none => true
  | some cfg => cfg.authority != 0 && cfg.«from» != 0 && cfg.«to» != 0

/-- An operation supplies only nonzero identities for the fields it
would store into the config. -/
def opNonzeroIdentities : Op → Bool
  | .opInit a _ f t _ _ => a != 0 && f != 0 && t != 0
  | .opUpdAddresses _ _ f t => f != 0 && t != 0
  | _ => true

/-- A concrete configuration used to instantiate theorems. -/
def demoCfg : Config :=
  { authority := 1, «from» := 2, «to» := 3, threshold_lamports := 100, bump := 254 }

/-- A concrete chain state holding `demoCfg`, every account funded with
1000 lamports. -/
def demoChain : Chain :=
  { config := some demoCfg, balances := fun _ => 1000 }

/-- A concrete zero-threshold configuration. -/
def demoCfg0 : Config :=
  { authority := 1, «from» := 2, «to» := 3, threshold_lamports := 0, bump := 254 }

/-- A concrete chain state holding `demoCfg0`. -/
def demoChain0 : Chain :=
  { config := some demoCfg0, balances := fun _ => 1000 }

/-- A concrete empty chain (no config yet, all balances zero). -/
def emptyChain : Chain :=
  { config := none, balances := fun _ => 0 }

/-! Shape lemmas: what a successful run of each instruction looks like. -/

theorem initializeConfig_ok {st st' : Chain} {a : Pubkey} {s : Bool} {f t : Pubkey}
    {th b : Nat} (h : initializeConfig st a s f t th b = .ok st') :
    s = true ∧ st.config = none ∧
      st' = { st with config := some (Config.mk a f t th b) } := by
  unfold initializeConfig at h
  cases s with
  | false => simp at h
  | true =>
    cases hc : st.config with
    | some c => rw [hc] at h; simp at h
    | none => rw [hc] at h; simp at h; exact ⟨rfl, rfl, h.symm⟩

theorem send_ok_config {st st' : Chain} {f : Pubkey} {s : Bool} {t : Pubkey} {l : Nat}
    (h : send_if_over_threshold st f s t l = .ok st') : st'.config = st.config := by
  unfold send_if_over_threshold at h
  repeat' split at h
  all_goals simp at h
  rw [← h]

theorem update_threshold_ok {st st' : Chain} {a : Pubkey} {s : Bool} {n : Nat}
    (h : update_threshold st a s n = .ok st') :
    ∃ cfg, st.config = some cfg ∧
      st' = { st with config := some { cfg with threshold_lamports := n } } := by
  unfold update_threshold at h
  split at h
  · simp at h
  · rename_i cfg hc
    repeat' split at h
    all_goals simp at h
    exact ⟨cfg, hc, h.symm⟩

theorem update_addresses_ok {st st' : Chain} {a : Pubkey} {s : Bool} {nf nt : Pubkey}
    (h : update_addresses st a s nf nt = .ok st') :
    ∃ cfg, st.config = some cfg ∧
      st' = { st with config := some { cfg with «from» := nf, «to» := nt } } := by
  unfold update_addresses at h
  split at h
  · simp at h
  · rename_i cfg hc
    repeat' split at h
    all_goals simp at h
    exact ⟨cfg, hc, h.symm⟩

/-! General lemmas used by several claims. -/

theorem applyOp_error {st : Chain} {op : Op} {e : TxError}
    (h : runOp st op = .error e) : applyOp st op = st := by
  unfold applyOp
  rw [h]

theorem send_valid_accounts_run (st : Chain) (cfg : Config) (amount : Nat)
    (hc : st.config = some cfg) (hth : cfg.threshold_lamports ≤ amount) :
    send_if_over_threshold st cfg.«from» true cfg.«to» amount
      = match system_transfer st.balances cfg.«from» cfg.«to» amount with
        | .error e => .error e
        | .ok bal => .ok { st with balances := bal } := by
  simp only [send_if_over_threshold, hc]
  simp [Nat.not_lt.mpr hth]

theorem transfer_balances_pointwise (bal : Pubkey → Nat) (src dst : Pubkey)
    (amount : Nat) (hbal : amount ≤ bal src) (p : Pubkey) :
    (if p = dst then (if p = src then bal p - amount else bal p) + amount
     else if p = src then bal p - amount else bal p) + (if p = src then amount else 0)
      = bal p + (if p = dst then amount else 0) := by
  by_cases h1 : p = src
  · subst h1
    by_cases h2 : p = dst
    · subst h2
      simp
      omega
    · simp [h2]
      omega
  · by_cases h2 : p = dst
    · subst h2
      simp [h1]
    · simp [h1, h2]

/-- C1: for every `amount ≥ threshold`, when the presenting identity is
the stored source (signing), the recipient is the stored destination,
and the source balance is sufficient, `send_if_over_threshold` succeeds,
invokes the external value-transfer primitive with exactly `amount` from
the currently stored source to the currently stored destination, moves
exactly `amount` (pointwise conservation over all accounts), and leaves
Config unchanged. -/
theorem send_meets_threshold_transfers_exact (st : Chain) (cfg : Config) (amount : Nat)
    (hc : st.config = some cfg)
    (hth : cfg.threshold_lamports ≤ amount)
    (hbal : amount ≤ st.balances cfg.«from») :
    ∃ st',
      send_if_over_threshold st cfg.«from» true cfg.«to» amount = .ok st' ∧
      st'.config = st.config ∧
      system_transfer st.balances cfg.«from» cfg.«to» amount = .ok st'.balances ∧
      (∀ p, st'.balances p + (if p = cfg.«from» then amount else 0)
          = st.balances p + (if p = cfg.«to» then amount else 0)) := by
  have hnb : ¬ st.balances cfg.«from» < amount := Nat.not_lt.mpr hbal
  have hsys : system_transfer st.balances cfg.«from» cfg.«to» amount
      = .ok (fun p =>
          if p = cfg.«to» then
            (if p = cfg.«from» then st.balances p - amount else st.balances p) + amount
          else if p = cfg.«from» then st.balances p - amount else st.balances p) := by
    unfold system_transfer
    rw [if_neg hnb]
  refine ⟨{ st with balances := fun p =>
      if p = cfg.«to» then
        (if p = cfg.«from» then st.balances p - amount else st.balances p) + amount
      else if p = cfg.«from» then st.balances p - amount else st.balances p },
    ?_, rfl, hsys, ?_⟩
  · rw [send_valid_accounts_run st cfg amount hc hth, hsys]
  · intro p
    exact transfer_balances_pointwise st.balances cfg.«from» cfg.«to» amount hbal p

/-- C1 witness: a concrete run at amount 150 on `demoChain`
(threshold 100, balances 1000). -/
theorem send_meets_threshold_transfers_exact_witness :
    demoChain.config = some demoCfg ∧ demoCfg.threshold_lamports ≤ 150 ∧
      150 ≤ demoChain.balances demoCfg.«from» ∧
      ∃ st',
        send_if_over_threshold demoChain demoCfg.«from» true demoCfg.«to» 150 = .ok st' ∧
        st'.config = demoChain.config ∧
        system_transfer demoChain.balances demoCfg.«from» demoCfg.«to» 150 = .ok st'.balances ∧
        (∀ p, st'.balances p + (if p = demoCfg.«from» then 150 else 0)
            = demoChain.balances p + (if p = demoCfg.«to» then 150 else 0)) :=
  ⟨rfl, by decide, by decide,
    send_meets_threshold_transfers_exact demoChain demoCfg 150 rfl (by decide) (by decide)⟩

/-- C2: the threshold comparison is inclusive: with valid accounts and
sufficient balance, a request at exactly `threshold` succeeds, at
`threshold - 1` (when the threshold is positive) fails with
`BelowThreshold`, and at `threshold + 1` succeeds. -/
theorem threshold_boundary_inclusive (st : Chain) (cfg : Config)
    (hc : st.config = some cfg)
    (hbal : cfg.threshold_lamports + 1 ≤ st.balances cfg.«from») :
    (∃ st', send_if_over_threshold st cfg.«from» true cfg.«to» cfg.threshold_lamports
        = .ok st') ∧
    (0 < cfg.threshold_lamports →
      send_if_over_threshold st cfg.«from» true cfg.«to» (cfg.threshold_lamports - 1)
        = .error .BelowThreshold) ∧
    (∃ st', send_if_over_threshold st cfg.«from» true cfg.«to» (cfg.threshold_lamports + 1)
        = .ok st') := by
  refine ⟨?_, ?_, ?_⟩
  · obtain ⟨st', h, -⟩ := send_meets_threshold_transfers_exact st cfg
      cfg.threshold_lamports hc (Nat.le_refl _) (by omega)
    exact ⟨st', h⟩
  · intro hpos
    simp only [send_if_over_threshold, hc]
    simp [Nat.sub_lt hpos Nat.one_pos]
  · obtain ⟨st', h, -⟩ := send_meets_threshold_transfers_exact st cfg
      (cfg.threshold_lamports + 1) hc (Nat.le_succ _) (by omega)
    exact ⟨st', h⟩

/-- C2 witness: on `demoChain` (threshold 100), amount 100 succeeds,
99 fails with `BelowThreshold`, 101 succeeds. -/
theorem threshold_boundary_inclusive_witness :
    demoChain.config = some demoCfg ∧
      demoCfg.threshold_lamports + 1 ≤ demoChain.balances demoCfg.«from» ∧
      ((∃ st', send_if_over_threshold demoChain demoCfg.«from» true demoCfg.«to»
          demoCfg.threshold_lamports = .ok st') ∧
       (0 < demoCfg.threshold_lamports →
         send_if_over_threshold demoChain demoCfg.«from» true demoCfg.«to»
           (demoCfg.threshold_lamports - 1) = .error .BelowThreshold) ∧
       (∃ st', send_if_over_threshold demoChain demoCfg.«from» true demoCfg.«to»
           (demoCfg.threshold_lamports + 1) = .ok st')) :=
  ⟨rfl, by decide, threshold_boundary_inclusive demoChain demoCfg rfl (by decide)⟩

/-- C3: for every amount strictly below the threshold, with valid
accounts, `send_if_over_threshold` fails with `BelowThreshold`; the
failure does not depend on any balance (the external transfer primitive
is never consulted), and the transaction leaves the state unchanged
(atomic rollback). -/
theorem below_threshold_atomic_failure (st : Chain) (cfg : Config) (amount : Nat)
    (hc : st.config = some cfg)
    (hlt : amount < cfg.threshold_lamports) :
    send_if_over_threshold st cfg.«from» true cfg.«to» amount = .error .BelowThreshold ∧
    (∀ bal : Pubkey → Nat,
      send_if_over_threshold { st with balances := bal } cfg.«from» true cfg.«to» amount
        = .error .BelowThreshold) ∧
    applyOp st (.opSend cfg.«from» true cfg.«to» amount) = st := by
  have hgen : ∀ bal : Pubkey → Nat,
      send_if_over_threshold { st with balances := bal } cfg.«from» true cfg.«to» amount
        = .error .BelowThreshold := by
    intro bal
    simp only [send_if_over_threshold, hc]
    simp [hlt]
  have hmain : send_if_over_threshold st cfg.«from» true cfg.«to» amount
      = .error .BelowThreshold := by
    have := hgen st.balances
    simpa using this
  exact ⟨hmain, hgen, applyOp_error (by simpa [runOp] using hmain)⟩

/-- C3 witness: on `demoChain` (threshold 100), amount 99 fails with
`BelowThreshold` for every balance assignment and leaves the chain
unchanged. -/
theorem below_threshold_atomic_failure_witness :
    demoChain.config = some demoCfg ∧ 99 < demoCfg.threshold_lamports ∧
      (send_if_over_threshold demoChain demoCfg.«from» true demoCfg.«to» 99
          = .error .BelowThreshold ∧
       (∀ bal : Pubkey → Nat,
         send_if_over_threshold { demoChain with balances := bal } demoCfg.«from» true
           demoCfg.«to» 99 = .error .BelowThreshold) ∧
       applyOp demoChain (.opSend demoCfg.«from» true demoCfg.«to» 99) = demoChain) :=
  ⟨rfl, by decide, below_threshold_atomic_failure demoChain demoCfg 99 rfl (by decide)⟩

/-- C4: for every caller identity different from the stored source, and
every amount and presented recipient, the transfer attempt fails with an
error that the spec's taxonomy classifies as `Unauthorized` (the
framework's address constraint on `from`, or the missing-signature
check), and the transaction leaves the state unchanged: no value moves. -/
theorem wrong_source_unauthorized (st : Chain) (cfg : Config)
    (caller toKey : Pubkey) (signed : Bool) (amount : Nat)
    (hc : st.config = some cfg)
    (hne : caller ≠ cfg.«from») :
    ∃ e, send_if_over_threshold st caller signed toKey amount = .error e ∧
      e.toSpec = .Unauthorized ∧
      applyOp st (.opSend caller signed toKey amount) = st := by
  have key : send_if_over_threshold st caller signed toKey amount
      = .error (if signed then .ConstraintAddress else .MissingSignature) := by
    cases signed <;> · simp only [send_if_over_threshold, hc]; simp [hne]
  refine ⟨_, key, ?_, applyOp_error (by simpa [runOp] using key)⟩
  cases signed <;> rfl

/-- C4 witness: caller 9 (not the stored source 2) attempting to send
500 on `demoChain` fails as `Unauthorized` with no state change. -/
theorem wrong_source_unauthorized_witness :
    demoChain.config = some demoCfg ∧ (9 : Pubkey) ≠ demoCfg.«from» ∧
      ∃ e, send_if_over_threshold demoChain 9 true 3 500 = .error e ∧
        e.toSpec = .Unauthorized ∧
        applyOp demoChain (.opSend 9 true 3 500) = demoChain :=
  ⟨rfl, by decide, wrong_source_unauthorized demoChain demoCfg 9 3 true 500 rfl (by decide)⟩

/-- C5: a transfer request whose presented recipient differs from the
stored destination fails with the framework's address constraint error —
`Unauthorized` in the spec's taxonomy — even when the stored source
signs and the amount meets the threshold, and the state is unchanged. -/
theorem wrong_recipient_unauthorized (st : Chain) (cfg : Config)
    (toKey : Pubkey) (amount : Nat)
    (hc : st.config = some cfg)
    (hne : toKey ≠ cfg.«to»)
    (hth : cfg.threshold_lamports ≤ amount) :
    send_if_over_threshold st cfg.«from» true toKey amount = .error .ConstraintAddress ∧
    TxError.ConstraintAddress.toSpec = .Unauthorized ∧
    applyOp st (.opSend cfg.«from» true toKey amount) = st := by
  have key : send_if_over_threshold st cfg.«from» true toKey amount
      = .error .ConstraintAddress := by
    simp only [send_if_over_threshold, hc]
    simp [hne]
  exact ⟨key, rfl, applyOp_error (by simpa [runOp] using key)⟩

/-- C5 witness: recipient 8 (not the stored destination 3), signed by
the stored source with amount 500 ≥ threshold 100, fails as
`Unauthorized` with no state change. -/
theorem wrong_recipient_unauthorized_witness :
    demoChain.config = some demoCfg ∧ (8 : Pubkey) ≠ demoCfg.«to» ∧
      demoCfg.threshold_lamports ≤ 500 ∧
      (send_if_over_threshold demoChain demoCfg.«from» true 8 500
          = .error .ConstraintAddress ∧
       TxError.ConstraintAddress.toSpec = .Unauthorized ∧
       applyOp demoChain (.opSend demoCfg.«from» true 8 500) = demoChain) :=
  ⟨rfl, by decide, by decide,
    wrong_recipient_unauthorized demoChain demoCfg 8 500 rfl (by decide) (by decide)⟩

/-- C6: for every caller identity different from the stored authority,
`update_threshold` and `update_addresses` each fail with an error the
spec's taxonomy classifies as `Unauthorized` (the `has_one = authority`
constraint, or the missing-signature check), and the transaction leaves
every field of Config unchanged. -/
theorem update_nonauthority_unauthorized (st : Chain) (cfg : Config)
    (caller : Pubkey) (signed : Bool) (newTh : Nat) (newFrom newTo : Pubkey)
    (hc : st.config = some cfg)
    (hne : caller ≠ cfg.authority) :
    (∃ e, update_threshold st caller signed newTh = .error e ∧
      e.toSpec = .Unauthorized) ∧
    (∃ e, update_addresses st caller signed newFrom newTo = .error e ∧
      e.toSpec = .Unauthorized) ∧
    applyOp st (.opUpdThreshold caller signed newTh) = st ∧
    applyOp st (.opUpdAddresses caller signed newFrom newTo) = st := by
  have hne' : cfg.authority ≠ caller := Ne.symm hne
  have k1 : update_threshold st caller signed newTh
      = .error (if signed then .ConstraintHasOne else .MissingSignature) := by
    cases signed <;> · simp only [update_threshold, hc]; simp [hne']
  have k2 : update_addresses st caller signed newFrom newTo
      = .error (if signed then .ConstraintHasOne else .MissingSignature) := by
    cases signed <;> · simp only [update_addresses, hc]; simp [hne']
  refine ⟨⟨_, k1, ?_⟩, ⟨_, k2, ?_⟩, applyOp_error (by simpa [runOp] using k1),
    applyOp_error (by simpa [runOp] using k2)⟩ <;> cases signed <;> rfl

/-- C6 witness: caller 9 (not the stored authority 1) attempting both
updates on `demoChain` fails as `Unauthorized` with no state change. -/
theorem update_nonauthority_unauthorized_witness :
    demoChain.config = some demoCfg ∧ (9 : Pubkey) ≠ demoCfg.authority ∧
      ((∃ e, update_threshold demoChain 9 true 5 = .error e ∧
          e.toSpec = .Unauthorized) ∧
       (∃ e, update_addresses demoChain 9 true 4 5 = .error e ∧
          e.toSpec = .Unauthorized) ∧
       applyOp demoChain (.opUpdThreshold 9 true 5) = demoChain ∧
       applyOp demoChain (.opUpdAddresses 9 true 4 5) = demoChain) :=
  ⟨rfl, by decide,
    update_nonauthority_unauthorized demoChain demoCfg 9 true 5 4 5 rfl (by decide)⟩

/-! Invariant preservation lemmas over `applyOp`. -/

theorem applyOp_nonzero (st : Chain) (op : Op)
    (h0 : configNonzero st = true) (hop : opNonzeroIdentities op = true) :
    configNonzero (applyOp st op) = true := by
  unfold applyOp
  cases op with
  | opInit a s f t th b =>
    cases hrun : runOp st (Op.opInit a s f t th b) with
    | error e => exact h0
    | ok st' =>
      obtain ⟨-, -, hst⟩ := initializeConfig_ok (by simpa [runOp] using hrun)
      subst hst
      simpa [configNonzero, opNonzeroIdentities] using hop
  | opSend fk s tk l =>
    cases hrun : runOp st (Op.opSend fk s tk l) with
    | error e => exact h0
    | ok st' =>
      have hcfg := send_ok_config (by simpa [runOp] using hrun)
      have heq : configNonzero st' = configNonzero st := by
        unfold configNonzero
        rw [hcfg]
      rw [heq]
      exact h0
  | opUpdThreshold a s n =>
    cases hrun : runOp st (Op.opUpdThreshold a s n) with
    | error e => exact h0
    | ok st' =>
      obtain ⟨c, hc2, hst⟩ := update_threshold_ok (by simpa [runOp] using hrun)
      subst hst
      unfold configNonzero at h0 ⊢
      rw [hc2] at h0
      simpa using h0
  | opUpdAddresses a s nf nt =>
    cases hrun : runOp st (Op.opUpdAddresses a s nf nt) with
    | error e => exact h0
    | ok st' =>
      obtain ⟨c, hc2, hst⟩ := update_addresses_ok (by simpa [runOp] using hrun)
      subst hst
      unfold configNonzero at h0 ⊢
      rw [hc2] at h0
      simp only [opNonzeroIdentities] at hop
      simp only [Bool.and_eq_true] at h0 hop ⊢
      exact ⟨⟨h0.1.1, hop.1⟩, hop.2⟩

theorem applyOp_bump (st : Chain) (op : Op) (cfg : Config)
    (hc : st.config = some cfg) :
    ∃ cfg', (applyOp st op).config = some cfg' ∧ cfg'.bump = cfg.bump := by
  unfold applyOp
  cases op with
  | opInit a s f t th b =>
    cases hrun : runOp st (Op.opInit a s f t th b) with
    | error e => exact ⟨cfg, hc, rfl⟩
    | ok st' =>
      obtain ⟨-, hnone, -⟩ := initializeConfig_ok (by simpa [runOp] using hrun)
      rw [hc] at hnone
      cases hnone
  | opSend fk s tk l =>
    cases hrun : runOp st (Op.opSend fk s tk l) with
    | error e => exact ⟨cfg, hc, rfl⟩
    | ok st' =>
      have h := send_ok_config (by simpa [runOp] using hrun)
      exact ⟨cfg, h.trans hc, rfl⟩
  | opUpdThreshold a s n =>
    cases hrun : runOp st (Op.opUpdThreshold a s n) with
    | error e => exact ⟨cfg, hc, rfl⟩
    | ok st' =>
      obtain ⟨c, hc2, hst⟩ := update_threshold_ok (by simpa [runOp] using hrun)
      subst hst
      rw [hc] at hc2
      simp only [Option.some.injEq] at hc2
      subst hc2
      exact ⟨{ cfg with threshold_lamports := n }, rfl, rfl⟩
  | opUpdAddresses a s nf nt =>
    cases hrun : runOp st (Op.opUpdAddresses a s nf nt) with
    | error e => exact ⟨cfg, hc, rfl⟩
    | ok st' =>
      obtain ⟨c, hc2, hst⟩ := update_addresses_ok (by simpa [runOp] using hrun)
      subst hst
      rw [hc] at hc2
      simp only [Option.some.injEq] at hc2
      subst hc2
      exact ⟨{ cfg with «from» := nf, «to» := nt }, rfl, rfl⟩

/-- C7 counterexample: the claim says `authority`, `source`,
`destination` are never the zero identity in a reachable state after
`initialize`, but the program performs no zero-identity validation: from
the empty chain, one `initialize` call whose `from` argument is the zero
identity succeeds, reaching a post-initialize state whose stored source
is zero. -/
theorem zero_source_reachable_after_init :
    (exec emptyChain [.opInit 1 true 0 7 100 255]).config
      = some { authority := 1, «from» := 0, «to» := 7,
               threshold_lamports := 100, bump := 255 } ∧
    configNonzero (exec emptyChain [.opInit 1 true 0 7 100 255]) = false :=
  ⟨rfl, rfl⟩

/-- C7 (amended): the code never validates identities against zero; the
stored fields simply equal the supplied values.  Provided the
initializing authority and every identity argument ever supplied to
`initialize` and `update_addresses` is nonzero, `authority`, `source`
and `destination` are nonzero in every reachable state. -/
theorem nonzero_identities_conditional_invariant (st : Chain) (ops : List Op)
    (h0 : configNonzero st = true)
    (hops : ops.all opNonzeroIdentities = true) :
    configNonzero (exec st ops) = true := by
  induction ops generalizing st with
  | nil => exact h0
  | cons op rest ih =>
    rw [List.all_cons, Bool.and_eq_true] at hops
    exact ih (applyOp st op) (applyOp_nonzero st op h0 hops.1) hops.2

/-- C7 (amended) witness: a concrete trace (initialize, then an address
update) with nonzero identities keeps the config fields nonzero. -/
theorem nonzero_identities_conditional_invariant_witness :
    configNonzero emptyChain = true ∧
      ([Op.opInit 1 true 2 3 100 254, Op.opUpdAddresses 1 true 4 5]).all
        opNonzeroIdentities = true ∧
      configNonzero (exec emptyChain
        [Op.opInit 1 true 2 3 100 254, Op.opUpdAddresses 1 true 4 5]) = true :=
  ⟨rfl, by decide,
    nonzero_identities_conditional_invariant emptyChain
      [Op.opInit 1 true 2 3 100 254, Op.opUpdAddresses 1 true 4 5] rfl (by decide)⟩

/-- C8: an authority-signed `update_addresses` replaces `source` and
`destination` together in one operation, leaves `authority`,
`threshold_lamports`, the bump and every balance unchanged, and accepts
arbitrary new addresses — in particular `new_from = new_to` — with no
validation. -/
theorem update_addresses_replaces_pair (st : Chain) (cfg : Config)
    (newFrom newTo : Pubkey) (hc : st.config = some cfg) :
    update_addresses st cfg.authority true newFrom newTo
      = .ok { st with config := some { cfg with «from» := newFrom, «to» := newTo } } := by
  simp only [update_addresses, hc]
  simp

/-- C8 witness: the authority sets both addresses to the same key 5 on
`demoChain`; the call succeeds and only `from`/`to` change. -/
theorem update_addresses_replaces_pair_witness :
    demoChain.config = some demoCfg ∧
      update_addresses demoChain demoCfg.authority true 5 5
        = .ok { demoChain with
                config := some { demoCfg with «from» := 5, «to» := 5 } } :=
  ⟨rfl, update_addresses_replaces_pair demoChain demoCfg 5 5 rfl⟩

/-- C9: `update_threshold` imposes no bounds on the new threshold: an
authority-signed call sets it to any value, zero included, leaving all
other fields unchanged; and when the stored threshold is zero, every
amount passes the threshold check — with valid accounts the call goes
straight to the external transfer primitive and in particular can never
fail with `BelowThreshold`. -/
theorem threshold_unbounded_zero_passes_all (st : Chain) (cfg : Config)
    (v amount : Nat) (hc : st.config = some cfg) :
    update_threshold st cfg.authority true v
      = .ok { st with config := some { cfg with threshold_lamports := v } } ∧
    (cfg.threshold_lamports = 0 →
      send_if_over_threshold st cfg.«from» true cfg.«to» amount
        = match system_transfer st.balances cfg.«from» cfg.«to» amount with
          | .error e => .error e
          | .ok bal => .ok { st with balances := bal }) := by
  constructor
  · simp only [update_threshold, hc]
    simp
  · intro h0
    exact send_valid_accounts_run st cfg amount hc (by rw [h0]; exact Nat.zero_le amount)

/-- C9 witness: on the zero-threshold chain `demoChain0`, the authority
sets the threshold to 0 (again), and an amount of 1 passes the check
and delegates to the transfer primitive. -/
theorem threshold_unbounded_zero_passes_all_witness :
    demoChain0.config = some demoCfg0 ∧
      (update_threshold demoChain0 demoCfg0.authority true 0
          = .ok { demoChain0 with
                  config := some { demoCfg0 with threshold_lamports := 0 } } ∧
       (demoCfg0.threshold_lamports = 0 →
         send_if_over_threshold demoChain0 demoCfg0.«from» true demoCfg0.«to» 1
           = match system_transfer demoChain0.balances demoCfg0.«from» demoCfg0.«to» 1 with
             | .error e => .error e
             | .ok bal => .ok { demoChain0 with balances := bal })) :=
  ⟨rfl, threshold_unbounded_zero_passes_all demoChain0 demoCfg0 0 1 rfl⟩

/-- C10: the stored PDA bump is written by `initialize` (to the
canonical bump the framework finds) and preserved unchanged by every
subsequent operation: no sequence of transfer or update calls ever
changes it. -/
theorem bump_set_once_and_preserved (st : Chain) (ops : List Op) (cfg : Config)
    (hc : st.config = some cfg) :
    (∀ (bal : Pubkey → Nat) (a f t : Pubkey) (th b : Nat),
      (initializeConfig { config := none, balances := bal } a true f t th b).map
        Chain.config = .ok (some (Config.mk a f t th b))) ∧
    (∃ cfg', (exec st ops).config = some cfg' ∧ cfg'.bump = cfg.bump) := by
  refine ⟨fun bal a f t th b => rfl, ?_⟩
  induction ops generalizing st cfg with
  | nil => exact ⟨cfg, hc, rfl⟩
  | cons op rest ih =>
    obtain ⟨c1, h1, hb1⟩ := applyOp_bump st op cfg hc
    obtain ⟨c2, h2, hb2⟩ := ih (applyOp st op) c1 h1
    exact ⟨c2, h2, hb2.trans hb1⟩

/-- C10 witness: after a threshold update followed by an address update
on `demoChain`, the stored bump still equals `demoCfg.bump`. -/
theorem bump_set_once_and_preserved_witness :
    demoChain.config = some demoCfg ∧
      ((∀ (bal : Pubkey → Nat) (a f t : Pubkey) (th b : Nat),
        (initializeConfig { config := none, balances := bal } a true f t th b).map
          Chain.config = .ok (some (Config.mk a f t th b))) ∧
       (∃ cfg', (exec demoChain
           [Op.opUpdThreshold 1 true 7, Op.opUpdAddresses 1 true 4 5]).config
             = some cfg' ∧ cfg'.bump = demoCfg.bump)) :=
  ⟨rfl, bump_set_once_and_preserved demoChain
    [Op.opUpdThreshold 1 true 7, Op.opUpdAddresses 1 true 4 5] demoCfg rfl⟩

end ConditionalTransfer
